import Mathlib

/-!
Verification of the RASPI_HEXAPOD locomotion core.

Shallow embedding of the Python sources in `hexapod_rpi/`:
`utils/vectors.py` (Vector2/Vector3), `utils/helpers.py` (constrain, map_float,
binomial_coefficient, get_point_on_bezier_curve, angle_to_microseconds,
microseconds_to_angle), `config.py` (leg dimensions, gait constants),
`kinematics.py` (HexapodKinematics.move_to_pos / set_raw_offsets),
`storage.py` (HexapodStorage.load_offsets),
`states/walking.py` (WalkingState.set_gait / update / get_gait_point),
`states/standing.py` (StandingState.update / set_3_highest_legs),
`states/sleep.py` (SleepState.update).

Machine floats are modelled as exact reals; Python integers as ℤ/ℕ.
`math.atan2 y x` is modelled as `Complex.arg ⟨x, y⟩`, which has the same
value on every quadrant and on the axes (including `atan2 0 0 = 0` and
`atan2 0 x = π` for `x < 0`).
-/

noncomputable section

namespace HexapodRpi

/-- 3D vector with `x, y, z` coordinates, from `utils/vectors.py` (`Vector3`). -/
structure V3 where
  x : ℝ
  y : ℝ
  z : ℝ

/-- 2D vector with `x, y` coordinates, from `utils/vectors.py` (`Vector2`). -/
structure V2 where
  x : ℝ
  y : ℝ

/-- `Vector3.__add__`. -/
def V3.add (a b : V3) : V3 := ⟨a.x + b.x, a.y + b.y, a.z + b.z⟩

instance : Add V3 := ⟨V3.add⟩

/-- `Vector3.__mul__` (scalar multiplication). -/
def V3.smul (a : V3) (s : ℝ) : V3 := ⟨a.x * s, a.y * s, a.z * s⟩

/-- `Vector3.__truediv__`: Python returns the zero vector on division by zero. -/
def V3.divScalar (a : V3) (s : ℝ) : V3 :=
  if s = 0 then ⟨0, 0, 0⟩ else ⟨a.x / s, a.y / s, a.z / s⟩

/-- `Vector3.magnitude`. -/
def V3.magnitude (v : V3) : ℝ := Real.sqrt (v.x ^ 2 + v.y ^ 2 + v.z ^ 2)

/-- `Vector3.distance_to`. -/
def V3.distanceTo (a b : V3) : ℝ :=
  Real.sqrt ((a.x - b.x) ^ 2 + (a.y - b.y) ^ 2 + (a.z - b.z) ^ 2)

/-- `Vector2.__mul__` (scalar multiplication). -/
def V2.smul (a : V2) (s : ℝ) : V2 := ⟨a.x * s, a.y * s⟩

/-- `Vector2.__add__`. -/
def V2.add (a b : V2) : V2 := ⟨a.x + b.x, a.y + b.y⟩

instance : Add V2 := ⟨V2.add⟩

/-- `Vector2.magnitude`. -/
def V2.magnitude (v : V2) : ℝ := Real.sqrt (v.x ^ 2 + v.y ^ 2)

/-- `Vector2.normalize`: returns the zero vector when the magnitude is zero. -/
def V2.normalize (v : V2) : V2 :=
  if v.magnitude = 0 then ⟨0, 0⟩ else ⟨v.x / v.magnitude, v.y / v.magnitude⟩

/-- `helpers.constrain(value, min_val, max_val) = max(min_val, min(max_val, value))`. -/
def constrain (value lo hi : ℝ) : ℝ := max lo (min hi value)

/-- `helpers.map_float(x, in_min, in_max, out_min, out_max)`. -/
def mapFloat (x inMin inMax outMin outMax : ℝ) : ℝ :=
  (x - inMin) * (outMax - outMin) / (inMax - inMin) + outMin

/-- `math.atan2 y x`, modelled as the argument of the complex number `x + y·i`. -/
def atan2 (y x : ℝ) : ℝ := Complex.arg ⟨x, y⟩

/-- Python `int(x)` on a float: truncation toward zero. -/
def pyInt (x : ℝ) : ℤ := if 0 ≤ x then ⌊x⌋ else ⌈x⌉

/-- `config.COXA_LENGTH` (a1). -/
def COXA_LENGTH : ℝ := 46

/-- `config.FEMUR_LENGTH` (a2). -/
def FEMUR_LENGTH : ℝ := 108

/-- `config.TIBIA_LENGTH` (a3). -/
def TIBIA_LENGTH : ℝ := 200

/-- `config.LEG_LENGTH = COXA_LENGTH + FEMUR_LENGTH + TIBIA_LENGTH`. -/
def LEG_LENGTH : ℝ := COXA_LENGTH + FEMUR_LENGTH + TIBIA_LENGTH

/-- `config.POINTS`, the gait cycle length. -/
def POINTS : ℝ := 1000

/-- `config.DISTANCE_FROM_CENTER`. -/
def DISTANCE_FROM_CENTER : ℝ := 173

/-- `config.DISTANCE_FROM_GROUND_BASE`. -/
def DISTANCE_FROM_GROUND_BASE : ℝ := -60

/-- `config.LIFT_HEIGHT`. -/
def LIFT_HEIGHT : ℝ := 130

/-- `config.LAND_HEIGHT`. -/
def LAND_HEIGHT : ℝ := 70

/-- `config.STRIDE_OVERSHOOT`. -/
def STRIDE_OVERSHOOT : ℝ := 10

/-- `config.STRIDE_MULTIPLIER = [1, 1, 1, -1, -1, -1]` (per-leg). -/
def STRIDE_MULTIPLIER : Fin 6 → ℝ := ![1, 1, 1, -1, -1, -1]

/-- `config.ROTATION_MULTIPLIER = [-1, 0, 1, -1, 0, 1]` (per-leg). -/
def ROTATION_MULTIPLIER : Fin 6 → ℝ := ![-1, 0, 1, -1, 0, 1]

/-- `config.BASE_OFFSET = {'x': 90, 'y': 50, 'z': -10}`. -/
def BASE_OFFSET : V3 := ⟨90, 50, -10⟩

/-- `helpers.angle_to_microseconds`: clamp the angle to [0, 180] and map linearly
to [500, 2500] microseconds, truncating to int. -/
def angleToMicroseconds (angle : ℝ) : ℤ :=
  pyInt (500 + constrain angle 0 180 / 180 * 2000)

/-- `helpers.microseconds_to_angle`: clamp to [500, 2500] and map linearly
back to [0, 180] degrees. -/
def microsecondsToAngle (microseconds : ℤ) : ℝ :=
  (constrain (microseconds : ℝ) 500 2500 - 500) / 2000 * 180

/-- `helpers.binomial_coefficient(n, k)`: the multiplicative loop
`for i in 1..k: result *= (n - (k - i)); result //= i`, starting from 1.
All in-repo calls have `k ≤ n`, where every intermediate Python value is a
nonnegative integer, so ℕ arithmetic (including floor division) is faithful. -/
def binomialCoefficient (n k : ℕ) : ℕ :=
  (List.range k).foldl (fun result i => result * (n - (k - (i + 1))) / (i + 1)) 1

/-- `helpers.get_point_on_bezier_curve(points, num_points, t)` for `Vector3`
control points: accumulates `pos += C(num_points-1, i) * (1-t)^(num_points-1-i)
* t^i * points[i]` over `i < num_points` starting from the zero vector.  (The
source's empty-list guard indexes `points[0]` on an empty list and can never
return; every call in the repo passes a nonempty list.) -/
def getPointOnBezierCurve (points : List V3) (numPoints : ℕ) (t : ℝ) : V3 :=
  (List.range numPoints).foldl
    (fun pos i =>
      pos + V3.smul (points.getD i ⟨0, 0, 0⟩)
        ((binomialCoefficient (numPoints - 1) i : ℝ) * (1 - t) ^ (numPoints - 1 - i) * t ^ i))
    ⟨0, 0, 0⟩

/-- `helpers.get_point_on_bezier_curve` for `Vector2` control points
(the same Bernstein accumulation, skipping the `z` component). -/
def getPointOnBezierCurve2 (points : List V2) (numPoints : ℕ) (t : ℝ) : V2 :=
  (List.range numPoints).foldl
    (fun pos i =>
      pos + V2.smul (points.getD i ⟨0, 0⟩)
        ((binomialCoefficient (numPoints - 1) i : ℝ) * (1 - t) ^ (numPoints - 1 - i) * t ^ i))
    ⟨0, 0⟩

/-- `storage.HexapodStorage.load_offsets`, applied to the stored offsets list
(when the key is missing the source substitutes `[0] * 18` before this
normalization): extend with zeros when shorter than 18, truncate when longer. -/
def loadOffsets (offsets : List ℝ) : List ℝ :=
  if offsets.length < 18 then offsets ++ List.replicate (18 - offsets.length) 0
  else if offsets.length > 18 then offsets.take 18
  else offsets

/-- The three joint angles (degrees) produced by the IK solver. -/
structure IKAngles where
  theta1 : ℝ
  theta2 : ℝ
  theta3 : ℝ

/-- The inverse-kinematics angle computation inside
`kinematics.HexapodKinematics.move_to_pos` (lines 96-119), with the leg's
calibration offsets `o1, o2, o3`.  Real division by zero yields 0 in this
model; every theorem below stays away from `h = 0`, where the Python source
would instead raise `ZeroDivisionError`. -/
def solveAngles (pos : V3) (o1 o2 o3 : ℝ) : IKAngles :=
  let x := pos.x
  let y := pos.y
  let z := pos.z
  let theta1 := atan2 y x * (180 / Real.pi) + o1
  let l := Real.sqrt (x * x + y * y)
  let l1 := l - COXA_LENGTH
  let h := Real.sqrt (l1 * l1 + z * z)
  let phi1 := Real.arccos (constrain
    ((h * h + FEMUR_LENGTH * FEMUR_LENGTH - TIBIA_LENGTH * TIBIA_LENGTH) /
      (2 * h * FEMUR_LENGTH)) (-1) 1)
  let phi2 := atan2 z l1
  let theta2 := (phi1 + phi2) * 180 / Real.pi + o2
  let phi3 := Real.arccos (constrain
    ((FEMUR_LENGTH * FEMUR_LENGTH + TIBIA_LENGTH * TIBIA_LENGTH - h * h) /
      (2 * FEMUR_LENGTH * TIBIA_LENGTH)) (-1) 1)
  let theta3 := 180 - phi3 * 180 / Real.pi + o3
  ⟨theta1, theta2, theta3⟩

/-- The mutable state of `HexapodKinematics` that `move_to_pos` and
`set_raw_offsets` touch: tracked foot positions, the int-truncated debug
positions, the 18 raw trims and the per-leg derived offset vectors. -/
structure KinState where
  currentPoints : Fin 6 → V3
  footPositions : Fin 6 → ℤ × ℤ
  rawOffsets : List ℝ
  offsets : Fin 6 → V3

/-- Result of one `move_to_pos` call: the updated kinematics state, the boolean
return value, and the `[coxa, femur, tibia]` angle triple passed to
`servo_controller.write_leg_servos` (or `none` when no command was issued). -/
structure MoveResult where
  state : KinState
  ok : Bool
  command : Option (ℝ × ℝ × ℝ)

/-- `kinematics.HexapodKinematics.move_to_pos(leg, pos)`: always records the
target in `foot_positions` and `current_points`; fails (no servo command) when
the distance from the origin exceeds `LEG_LENGTH`; otherwise solves the IK,
converts each angle to microseconds and back to degrees, and commands the leg
servos. -/
def moveToPos (s : KinState) (leg : Fin 6) (pos : V3) : MoveResult :=
  let s1 : KinState :=
    { s with
      footPositions := Function.update s.footPositions leg (pyInt pos.x, pyInt pos.y)
      currentPoints := Function.update s.currentPoints leg pos }
  let distance := V3.distanceTo ⟨0, 0, 0⟩ pos
  if distance > LEG_LENGTH then
    ⟨s1, false, none⟩
  else
    let o := s.offsets leg
    let a := solveAngles pos o.x o.y o.z
    let coxaAngle := microsecondsToAngle (angleToMicroseconds a.theta1)
    let femurAngle := microsecondsToAngle (angleToMicroseconds a.theta2)
    let tibiaAngle := microsecondsToAngle (angleToMicroseconds a.theta3)
    ⟨s1, true, some (coxaAngle, femurAngle, tibiaAngle)⟩

/-- `kinematics.HexapodKinematics.update_offset_variables`: rebuild the six
offset vectors as raw trim triples plus the fixed `BASE_OFFSET`. -/
def updateOffsetVariables (s : KinState) : KinState :=
  { s with
    offsets := fun i =>
      ⟨s.rawOffsets.getD (i.val * 3) 0 + BASE_OFFSET.x,
       s.rawOffsets.getD (i.val * 3 + 1) 0 + BASE_OFFSET.y,
       s.rawOffsets.getD (i.val * 3 + 2) 0 + BASE_OFFSET.z⟩ }

/-- `kinematics.HexapodKinematics.set_raw_offsets(offsets)`: when the list does
not have exactly 18 entries the source prints an error and returns with the
state untouched; otherwise it stores a copy and rebuilds the offset vectors. -/
def setRawOffsets (s : KinState) (offsets : List ℝ) : KinState :=
  if offsets.length ≠ 18 then s
  else updateOffsetVariables { s with rawOffsets := offsets }

/-- `HexapodKinematics.__init__`: zero current points, 18 zero raw trims,
all offset vectors equal to `BASE_OFFSET`. -/
def initKinState : KinState :=
  { currentPoints := fun _ => ⟨0, 0, 0⟩
    footPositions := fun _ => (0, 0)
    rawOffsets := List.replicate 18 0
    offsets := fun _ => BASE_OFFSET }

/-- A kinematics state whose calibration offsets are all zero, used for the
zero-offset round-trip statements. -/
def zeroOffsetKinState : KinState :=
  { initKinState with offsets := fun _ => ⟨0, 0, 0⟩ }

/-- `WalkingState.set_gait(config.Gait.TRI)` (walking.py lines 94-101): the six
cycle-progress values are set to `[0, points/2, 0, points/2, 0, points/2]`. -/
def setGaitTriCycle : Fin 6 → ℝ := ![0, POINTS / 2, 0, POINTS / 2, 0, POINTS / 2]

/-- The `progress_change` computed by `WalkingState.update` (lines 228-231)
with the tripod parameters set by `set_gait` (`speed_multiplier = 1.0`,
`max_speed = 200.0`): the raw change `max(|forward|, |turn|) * speed_mult *
20 * global_speed_mult` clamped into `[0, max_speed * global_speed_mult]`,
where `global_speed_mult = (slider1 + 10) * 0.01`, `forward = |joy1|` and
`turn = joy2.x`. -/
def triProgressChange (joy1 joy2 : V2) (slider1 : ℝ) : ℝ :=
  let gsm := (slider1 + 10) * 0.01
  let forwardAmount := joy1.magnitude
  let turnAmount := joy2.x
  constrain (max |forwardAmount| |turnAmount| * 1.0 * 20.0 * gsm) 0 (200 * gsm)

/-- The cycle-progress advance at the end of `WalkingState.update`
(lines 236-239): add the same `progress_change` to all six legs, subtracting
one cycle length whenever a value reaches `points`. -/
def cycleStep (cp : Fin 6 → ℝ) (change : ℝ) : Fin 6 → ℝ :=
  fun i => if cp i + change ≥ POINTS then cp i + change - POINTS else cp i + change

/-- One `WalkingState.update` tick, projected onto the cycle-progress state,
for the tripod gait. -/
def walkUpdateCycle (cp : Fin 6 → ℝ) (joy1 joy2 : V2) (slider1 : ℝ) : Fin 6 → ℝ :=
  cycleStep cp (triProgressChange joy1 joy2 slider1)

/-- Iterate `WalkingState.update` ticks over a list of joystick/slider inputs. -/
def runWalkTicks (cp : Fin 6 → ℝ) : List (V2 × V2 × ℝ) → (Fin 6 → ℝ)
  | [] => cp
  | (j1, j2, s) :: rest => runWalkTicks (walkUpdateCycle cp j1 j2 s) rest

/-- The tripod phase-lock property: legs 0, 2, 4 share one cycle-progress
value, legs 1, 3, 5 share another, and the two differ by exactly half a cycle
modulo the cycle length. -/
def tripodPhaseLock (cp : Fin 6 → ℝ) : Prop :=
  cp 0 = cp 2 ∧ cp 2 = cp 4 ∧ cp 1 = cp 3 ∧ cp 3 = cp 5 ∧
  ∃ k : ℤ, cp 1 - cp 0 = POINTS / 2 + POINTS * k

/-- `helpers.lerp` on scalars: `a * (1 - f) + b * f`. -/
def lerpR (a b f : ℝ) : ℝ := a * (1 - f) + b * f

/-- `helpers.lerp` on `Vector3`: component-wise scalar lerp. -/
def lerpV3 (a b : V3) (f : ℝ) : V3 :=
  ⟨lerpR a.x b.x f, lerpR a.y b.y f, lerpR a.z b.z f⟩

/-- A leg position as the sleep controller sees it: the `Vector3` value
together with whether the list entry is the very `target_sleep_position`
object.  Python's `Vector3` defines no `__eq__`, so `!=` between two
`Vector3`s falls back to object identity; the Bool records that identity.
`HexapodKinematics.move_to_pos` stores `pos.copy()` and
`get_all_positions` returns copies, so every entry produced by the
kinematics carries `isTargetObj = false` even when its value equals the
target exactly. -/
structure TrackedV3 where
  val : V3
  isTargetObj : Bool

/-- `SleepState.target_sleep_position = Vector3(130, 0, -46)`. -/
def TARGET_SLEEP_POSITION : V3 := ⟨130, 0, -46⟩

/-- The mutable fields of `states/sleep.py` `SleepState`. -/
structure SleepCtl where
  sleepState : ℕ
  initialized : Bool
  servosDetached : Bool

/-- Result of one `SleepState.update` call: the new controller state, the
boolean return value (`True` when sleeping), the `move_to_pos` targets issued
this tick, and whether `detach_servos` was called this tick. -/
structure SleepTick where
  ctl : SleepCtl
  ret : Bool
  moves : List (Fin 6 × V3)
  detach : Bool

/-- `states/sleep.py` `SleepState.update`, with the servo-attached flag and
the controller's view of the six current leg positions as inputs.  The
phase-1 arrival test `self.current_points[i] != self.target_sleep_position`
compares object identity (see `TrackedV3`), so it is `False` only for an
entry that is the target object itself. -/
def sleepUpdate (st : SleepCtl) (servosAttached : Bool)
    (currentPoints : Fin 6 → TrackedV3) : SleepTick :=
  let st1 := if st.initialized then st
    else { st with initialized := true, sleepState := 1, servosDetached := false }
  if ¬ servosAttached then ⟨st1, true, [], false⟩
  else if st1.sleepState = 1 then
    let nextPos : Fin 6 → V3 := fun i =>
      let cur := (currentPoints i).val
      let np := lerpV3 cur TARGET_SLEEP_POSITION 0.03
      ⟨if |cur.x - TARGET_SLEEP_POSITION.x| < 1 then TARGET_SLEEP_POSITION.x else np.x,
       if |cur.y - TARGET_SLEEP_POSITION.y| < 1 then TARGET_SLEEP_POSITION.y else np.y,
       if |cur.z - TARGET_SLEEP_POSITION.z| < 1 then TARGET_SLEEP_POSITION.z else np.z⟩
    let moves := (List.finRange 6).map fun i => (i, nextPos i)
    let targetReached := (List.finRange 6).all fun i => (currentPoints i).isTargetObj
    if targetReached then ⟨{ st1 with sleepState := 2 }, false, moves, false⟩
    else ⟨st1, false, moves, false⟩
  else if st1.sleepState = 2 then
    ⟨{ st1 with servosDetached := true, sleepState := 3 }, true, [], true⟩
  else if st1.sleepState = 3 then ⟨st1, true, [], false⟩
  else ⟨st1, false, [], false⟩

/-- A sleep controller sitting in phase 1 (already initialized, servos
attached). -/
def phase1SleepCtl : SleepCtl := ⟨1, true, false⟩

/-- Six tracked positions whose values all equal the sleep target exactly but
that are kinematics-produced copies, not the target object itself. -/
def valueEqualSleepPoints : Fin 6 → TrackedV3 :=
  fun _ => ⟨⟨130, 0, -46⟩, false⟩

/-- `config.LegState` tags. -/
inductive LegState where
  | PROPELLING
  | LIFTING
  | STANDING
  | RESET
deriving DecidableEq

/-- `WalkingState.leg_placement_angle = 56.0` degrees. -/
def LEG_PLACEMENT_ANGLE : ℝ := 56

/-- `WalkingState.rotate_point(point, angle_deg, pivot)`: rotate a point about
a pivot in the XY plane, keeping z. -/
def rotatePoint (point : V3) (angleDeg : ℝ) (pivot : V2) : V3 :=
  let angleRad := angleDeg * Real.pi / 180
  let cosA := Real.cos angleRad
  let sinA := Real.sin angleRad
  let x := point.x - pivot.x
  let y := point.y - pivot.y
  ⟨x * cosA - y * sinA + pivot.x, x * sinA + y * cosA + pivot.y, point.z⟩

/-- The fields of `WalkingState` that `get_gait_point` reads. -/
structure WalkState where
  tArr : Fin 6 → ℝ
  cycleStartPoints : Fin 6 → V3
  legStates : Fin 6 → LegState
  currentPoints : Fin 6 → V3
  forwardAmount : ℝ
  turnAmount : ℝ
  globalSpeedMultiplier : ℝ
  globalRotationMultiplier : ℝ
  distanceFromGround : ℝ
  dynamicStrideLength : Bool
  strideLengthMultiplier : ℝ
  maxStrideLength : ℝ
  liftHeightMultiplier : ℝ

/-- The stride vector `v` computed at the top of `get_gait_point`: optionally
normalized to length 70 (fixed-stride mode), y scaled by the stride-length
multiplier and clamped to half the max stride, then scaled by the global
speed multiplier. -/
def gaitStrideVec (s : WalkState) (joy1 : V2) : V2 :=
  let v0 := if ¬ s.dynamicStrideLength then V2.smul joy1.normalize 70 else joy1
  let v1 : V2 := ⟨v0.x, v0.y * s.strideLengthMultiplier⟩
  let v2 : V2 := ⟨v1.x, constrain v1.y (-(s.maxStrideLength / 2)) (s.maxStrideLength / 2)⟩
  V2.smul v2 s.globalSpeedMultiplier

/-- The straight-path 2-point Bezier point of the propelling phase of
`get_gait_point` (walking.py lines 286-302): from the cycle start point to the
translation target rotated about the leg placement point, evaluated at the
phase-local parameter. -/
def propelStraightPoint (csp : V3) (v : V2) (leg : Fin 6) (dfg t pushFraction : ℝ) : V3 :=
  let targetPoint : V3 :=
    ⟨v.x * STRIDE_MULTIPLIER leg + DISTANCE_FROM_CENTER,
     -(v.y) * STRIDE_MULTIPLIER leg, dfg⟩
  let cp1 := rotatePoint targetPoint (LEG_PLACEMENT_ANGLE * ROTATION_MULTIPLIER leg)
    ⟨DISTANCE_FROM_CENTER, 0⟩
  getPointOnBezierCurve [csp, cp1] 2 (mapFloat t 0 pushFraction 0 1)

/-- The rotation-path 3-point Bezier point of the propelling phase
(walking.py lines 304-316). -/
def propelRotatePoint (csp : V3) (rotateStrideLength dfg t pushFraction : ℝ) : V3 :=
  getPointOnBezierCurve
    [csp, ⟨DISTANCE_FROM_CENTER + 40, 0, dfg⟩,
     ⟨DISTANCE_FROM_CENTER, rotateStrideLength, dfg⟩] 3
    (mapFloat t 0 pushFraction 0 1)

/-- The straight-path 4-point Bezier point of the lifting phase
(walking.py lines 328-359). -/
def liftStraightPoint (s : WalkState) (csp : V3) (v : V2) (leg : Fin 6)
    (t pushFraction : ℝ) : V3 :=
  let cp1 := csp + (⟨0, 0, LIFT_HEIGHT * s.liftHeightMultiplier⟩ : V3)
  let midPoint : V3 :=
    ⟨-(v.x) * STRIDE_MULTIPLIER leg + DISTANCE_FROM_CENTER,
     (v.y + STRIDE_OVERSHOOT) * STRIDE_MULTIPLIER leg,
     s.distanceFromGround + LAND_HEIGHT⟩
  let cp2 := rotatePoint midPoint (LEG_PLACEMENT_ANGLE * ROTATION_MULTIPLIER leg)
    ⟨DISTANCE_FROM_CENTER, 0⟩
  let endPoint : V3 :=
    ⟨-(v.x) * STRIDE_MULTIPLIER leg + DISTANCE_FROM_CENTER,
     v.y * STRIDE_MULTIPLIER leg, s.distanceFromGround⟩
  let cp3 := rotatePoint endPoint (LEG_PLACEMENT_ANGLE * ROTATION_MULTIPLIER leg)
    ⟨DISTANCE_FROM_CENTER, 0⟩
  getPointOnBezierCurve [csp, cp1, cp2, cp3] 4 (mapFloat t pushFraction 1 0 1)

/-- The rotation-path 5-point Bezier point of the lifting phase
(walking.py lines 361-382). -/
def liftRotatePoint (s : WalkState) (csp : V3) (rotateStrideLength t pushFraction : ℝ) : V3 :=
  let cp1 := csp + (⟨0, 0, LIFT_HEIGHT * s.liftHeightMultiplier⟩ : V3)
  getPointOnBezierCurve
    [csp, cp1,
     ⟨DISTANCE_FROM_CENTER + 40, 0, s.distanceFromGround + LIFT_HEIGHT * s.liftHeightMultiplier⟩,
     ⟨DISTANCE_FROM_CENTER, -(rotateStrideLength + STRIDE_OVERSHOOT),
      s.distanceFromGround + LAND_HEIGHT⟩,
     ⟨DISTANCE_FROM_CENTER, -rotateStrideLength, s.distanceFromGround⟩] 5
    (mapFloat t pushFraction 1 0 1)

/-- `WalkingState.get_gait_point(leg, push_fraction, joy1, joy2)`: returns the
blended target point together with the updated leg sub-states and cycle start
points (snapshotted on phase entry).  The blend is
`(straight * |forward| + rotate * |turn|) / weight_sum` with `weight_sum =
|forward| + |turn|` floored to 1.0 when it is zero. -/
def getGaitPoint (s : WalkState) (leg : Fin 6) (pushFraction : ℝ) (joy1 joy2 : V2) :
    V3 × (Fin 6 → LegState) × (Fin 6 → V3) :=
  let rotateStrideLength0 := joy2.x * s.globalRotationMultiplier
  let v := gaitStrideVec s joy1
  let rotateStrideLength :=
    if ¬ s.dynamicStrideLength then (if rotateStrideLength0 < 0 then (-70 : ℝ) else 70)
    else rotateStrideLength0
  let weightSum0 := |s.forwardAmount| + |s.turnAmount|
  let weightSum := if weightSum0 = 0 then 1 else weightSum0
  let t := s.tArr leg
  if t < pushFraction then
    let snap := s.legStates leg ≠ LegState.PROPELLING
    let csp := if snap then s.currentPoints leg else s.cycleStartPoints leg
    let cycleStartPoints1 :=
      if snap then Function.update s.cycleStartPoints leg (s.currentPoints leg)
      else s.cycleStartPoints
    let legStates1 := Function.update s.legStates leg LegState.PROPELLING
    let straightPoint := propelStraightPoint csp v leg s.distanceFromGround t pushFraction
    let rotatePointV := propelRotatePoint csp rotateStrideLength s.distanceFromGround t pushFraction
    (V3.divScalar (V3.smul straightPoint |s.forwardAmount| +
      V3.smul rotatePointV |s.turnAmount|) weightSum, legStates1, cycleStartPoints1)
  else
    let snap := s.legStates leg ≠ LegState.LIFTING
    let csp := if snap then s.currentPoints leg else s.cycleStartPoints leg
    let cycleStartPoints1 :=
      if snap then Function.update s.cycleStartPoints leg (s.currentPoints leg)
      else s.cycleStartPoints
    let legStates1 := Function.update s.legStates leg LegState.LIFTING
    let straightPoint := liftStraightPoint s csp v leg t pushFraction
    let rotatePointV := liftRotatePoint s csp rotateStrideLength t pushFraction
    (V3.divScalar (V3.smul straightPoint |s.forwardAmount| +
      V3.smul rotatePointV |s.turnAmount|) weightSum, legStates1, cycleStartPoints1)

/-- A tripod-gait walking state with zero commanded translation and rotation,
all legs propelling at phase 0 from the default stance point. -/
def zeroCmdWalkState : WalkState :=
  { tArr := fun _ => 0
    cycleStartPoints := fun _ => ⟨173, 0, -60⟩
    legStates := fun _ => LegState.PROPELLING
    currentPoints := fun _ => ⟨173, 0, -60⟩
    forwardAmount := 0
    turnAmount := 0
    globalSpeedMultiplier := 0.55
    globalRotationMultiplier := 0.55
    distanceFromGround := -60
    dynamicStrideLength := true
    strideLengthMultiplier := 1.2
    maxStrideLength := 240
    liftHeightMultiplier := 1.1 }

/-- `config.State` tags (the previous-state argument of `StandingState.update`). -/
inductive StateTag where
  | INITIALIZE
  | STAND
  | CAR
  | CRAB
  | CALIBRATE
  | SLAM_ATTACK
  | SLEEP
  | ATTACH
deriving DecidableEq

/-- Python list indexing on a 6-element list for the in-range indices
(-6 ≤ k ≤ 5) that `StandingState` can produce: negative indices count from
the end, which is `k mod 6`. -/
def pyListIdx (k : ℤ) : Fin 6 := ⟨(k % 6).toNat, by omega⟩

/-- The mutable fields of `states/standing.py` `StandingState` used by
`update`: the per-leg 3-point Bezier control points (`scpa[i][0..2]`; the
source allocates 10 slots per leg but only ever writes and reads the first
three), the selected legs, the loop/progress counters, and the controller's
view of the current leg positions. -/
structure StandState where
  initialized : Bool
  standLoops : ℕ
  standProgress : ℝ
  currentLegs : Fin 3 → ℤ
  scpa : Fin 6 → V3 × V3 × V3
  currentPoints : Fin 6 → V3

/-- `StandingState.set_3_highest_legs`: three passes, each scanning legs 0-5,
skipping legs already selected or already within 5 mm of the standing end
point, and keeping the highest (greatest z) candidate for the slot.  The
disjunction short-circuits in Python, so the `current_points[current_legs[j]]`
lookup only happens when slot j is filled; the total model looks the slot up
with Python's negative-index semantics, whose value is then irrelevant. -/
def select3 (pts : Fin 6 → V3) (endP : V3) : Fin 3 → ℤ :=
  (List.finRange 3).foldl
    (fun cur j =>
      (List.finRange 6).foldl
        (fun cur i =>
          if cur 0 = (i : ℤ) ∨ cur 1 = (i : ℤ) ∨ cur 2 = (i : ℤ) then cur
          else if V3.distanceTo (pts i) endP < 5 then cur
          else if cur j = -1 ∨ (pts i).z > (pts (pyListIdx (cur j))).z then
            Function.update cur j (i : ℤ)
          else cur)
        cur)
    (fun _ => -1)

/-- The first-call initialization block of `StandingState.update`
(standing.py lines 75-115): force move-all-at-once (and high lift) for the
appropriate previous states, select the three highest legs otherwise, snapshot
the start points, and build each leg's 3-point Bezier (start, in-between with
extra lift, end).  Returns the updated state and the effective
`move_all_at_once` value used for the rest of this tick. -/
def standInit (s : StandState) (endP : V3) (fromState : StateTag)
    (moveAllAtOnce highLift : Bool) : StandState × Bool :=
  if s.initialized then (s, moveAllAtOnce)
  else
    let moveAll := moveAllAtOnce || decide (fromState = StateTag.CALIBRATE) ||
      decide (fromState = StateTag.INITIALIZE) || decide (fromState = StateTag.SLAM_ATTACK) ||
      decide (fromState = StateTag.SLEEP) || decide (fromState = StateTag.ATTACH)
    let hL := highLift || decide (fromState = StateTag.SLAM_ATTACK) ||
      decide (fromState = StateTag.SLEEP)
    let legs := if moveAll then s.currentLegs else select3 s.currentPoints endP
    let between : Fin 6 → V3 := fun i =>
      let p := s.currentPoints i
      let bz0 := (p.z + endP.z) / 2
      let bz1 := if |bz0 - endP.z| < 50 then bz0 + 70 else bz0
      let bz2 := if hL then bz1 + 80 else bz1
      ⟨(p.x + endP.x) / 1.5, (p.y + endP.y) / 1.5, bz2⟩
    ({ s with
        initialized := true
        standLoops := 0
        standProgress := 0
        currentLegs := legs
        scpa := fun i => (s.currentPoints i, between i, endP) }, moveAll)

/-- The transition block of `StandingState.update` (lines 122-152): while
`stand_loops < 2`, advance `stand_progress` by 20 and either move all six legs
along their Bezier curves or only the (up to three) selected legs, bumping the
loop counter and re-selecting the next three once a pass completes.  Returns
the updated state and the `move_to_pos` commands issued by this block. -/
def standTransition (s : StandState) (endP : V3) (moveAll : Bool) :
    StandState × List (ℕ × V3) :=
  if s.standLoops < 2 then
    let prog := s.standProgress + 20
    let t0 := prog / POINTS
    let t := if t0 > 1 then 1 else t0
    if moveAll then
      let cmds := (List.finRange 6).map fun i =>
        (i.val, getPointOnBezierCurve [(s.scpa i).1, (s.scpa i).2.1, (s.scpa i).2.2] 3 t)
      if prog > POINTS then ({ s with standProgress := 0, standLoops := 2 }, cmds)
      else ({ s with standProgress := prog }, cmds)
    else
      let cmds := (List.finRange 3).filterMap fun j =>
        if s.currentLegs j ≠ -1 then
          let li := pyListIdx (s.currentLegs j)
          some (li.val,
            getPointOnBezierCurve [(s.scpa li).1, (s.scpa li).2.1, (s.scpa li).2.2] 3 t)
        else none
      if prog > POINTS then
        let s1 := { s with standProgress := (0 : ℝ), standLoops := s.standLoops + 1 }
        if s1.standLoops < 2 then
          ({ s1 with currentLegs := select3 s1.currentPoints endP }, cmds)
        else (s1, cmds)
      else ({ s with standProgress := prog }, cmds)
  else (s, [])

/-- `StandingState.update(distance_from_ground, standing_distance_adjustment,
from_state, move_all_at_once, high_lift)`: compute the standing end point,
run the first-call initialization, refresh every leg's third control point to
the end point, run the transition block, and then — unconditionally, every
tick — run the maintain loop, which commands all six legs to their Bezier
point at t = 1.  Returns the final state, the issued `move_to_pos` commands
in order, and the completion boolean `stand_loops >= 2`. -/
def standUpdate (s : StandState) (distanceFromGround standingDistanceAdjustment : ℝ)
    (fromState : StateTag) (moveAllAtOnce highLift : Bool) :
    StandState × List (ℕ × V3) × Bool :=
  let endP : V3 :=
    ⟨DISTANCE_FROM_CENTER, 0, distanceFromGround + standingDistanceAdjustment⟩
  let init := standInit s endP fromState moveAllAtOnce highLift
  let s1 := init.1
  let moveAll := init.2
  let s2 := { s1 with scpa := fun i => ((s1.scpa i).1, (s1.scpa i).2.1, endP) }
  let tr := standTransition s2 endP moveAll
  let s3 := tr.1
  let cmds2 := (List.finRange 6).map fun i =>
    (i.val, getPointOnBezierCurve [(s3.scpa i).1, (s3.scpa i).2.1, (s3.scpa i).2.2] 3 1)
  (s3, tr.2 ++ cmds2, decide (s3.standLoops ≥ 2))

/-- A first standing tick entered from walking: not yet initialized, every leg
at (173, 0, -110), 50 mm below the standing end point. -/
def standFromWalkState : StandState :=
  { initialized := false
    standLoops := 0
    standProgress := 0
    currentLegs := fun _ => -1
    scpa := fun _ => (⟨0, 0, 0⟩, ⟨0, 0, 0⟩, ⟨0, 0, 0⟩)
    currentPoints := fun _ => ⟨173, 0, -110⟩ }

/-- The femur-joint-to-foot distance computed inside the solver:
`h = sqrt((sqrt(x^2+y^2) - a1)^2 + z^2)`. -/
def femurFootDist (x y z : ℝ) : ℝ :=
  Real.sqrt ((Real.sqrt (x * x + y * y) - COXA_LENGTH) *
    (Real.sqrt (x * x + y * y) - COXA_LENGTH) + z * z)

/-- Forward kinematics reconstructing the foot position from the three solved
joint angles (degrees, zero offsets) and the link lengths, following the
spec's round-trip law (§8) and the solver's own angle conventions: θ2 is the
femur's elevation from the horizontal, the interior knee angle is 180 - θ3,
so the tibia points at angle θ2 - θ3 from the horizontal; the horizontal
reach is `a1 + a2·cos θ2 + a3·cos (θ2-θ3)`, rotated by θ1 about the vertical
axis, and the height is `a2·sin θ2 + a3·sin (θ2-θ3)`. -/
def fkFromAngles (ang : IKAngles) : V3 :=
  let t1 := ang.theta1 * Real.pi / 180
  let t2 := ang.theta2 * Real.pi / 180
  let t23 := (ang.theta2 - ang.theta3) * Real.pi / 180
  let r := COXA_LENGTH + FEMUR_LENGTH * Real.cos t2 + TIBIA_LENGTH * Real.cos t23
  ⟨r * Real.cos t1, r * Real.sin t1,
   FEMUR_LENGTH * Real.sin t2 + TIBIA_LENGTH * Real.sin t23⟩

@[ext] theorem V3.ext3 {a b : V3} (hx : a.x = b.x) (hy : a.y = b.y) (hz : a.z = b.z) : a = b := by
  cases a; cases b; simp_all

@[ext] theorem V2.ext2 {a b : V2} (hx : a.x = b.x) (hy : a.y = b.y) : a = b := by
  cases a; cases b; simp_all

/-- Both constrain bounds, available when the lower bound is below the upper. -/
theorem constrain_mem (value lo hi : ℝ) (hlh : lo ≤ hi) :
    lo ≤ constrain value lo hi ∧ constrain value lo hi ≤ hi := by
  refine ⟨le_max_left _ _, max_le hlh (min_le_left _ _)⟩

/-- The constrain helper is the identity on values already inside the bounds. -/
theorem constrain_eq_self (value lo hi : ℝ) (h1 : lo ≤ value) (h2 : value ≤ hi) :
    constrain value lo hi = value := by
  unfold constrain
  rw [min_eq_right h2, max_eq_right h1]

/-- Every output of `microseconds_to_angle` lies in [0, 180], whatever the input. -/
theorem microsecondsToAngle_mem (m : ℤ) :
    0 ≤ microsecondsToAngle m ∧ microsecondsToAngle m ≤ 180 := by
  obtain ⟨h1, h2⟩ := constrain_mem (m : ℝ) 500 2500 (by norm_num)
  unfold microsecondsToAngle
  constructor <;> nlinarith

/-- In the reachable branch, the command `move_to_pos` issues is the
microsecond-clamped round trip of the three solved angles. -/
theorem moveToPos_command_eq (s : KinState) (leg : Fin 6) (pos : V3)
    (hd : ¬ V3.distanceTo ⟨0, 0, 0⟩ pos > LEG_LENGTH) :
    (moveToPos s leg pos).command =
      some
        (microsecondsToAngle (angleToMicroseconds
          (solveAngles pos (s.offsets leg).x (s.offsets leg).y (s.offsets leg).z).theta1),
         microsecondsToAngle (angleToMicroseconds
          (solveAngles pos (s.offsets leg).x (s.offsets leg).y (s.offsets leg).z).theta2),
         microsecondsToAngle (angleToMicroseconds
          (solveAngles pos (s.offsets leg).x (s.offsets leg).y (s.offsets leg).z).theta3)) := by
  unfold moveToPos
  simp [hd]

/-- C9: for every stored offsets list, `load_offsets` returns exactly 18
entries: shorter lists are padded with zeros, longer lists are truncated. -/
theorem load_offsets_always_18 (offsets : List ℝ) :
    (loadOffsets offsets).length = 18 ∧
    loadOffsets offsets =
      (if offsets.length ≤ 18 then offsets ++ List.replicate (18 - offsets.length) 0
       else offsets.take 18) := by
  unfold loadOffsets
  rcases lt_trichotomy offsets.length 18 with h | h | h
  · rw [if_pos h, if_pos (le_of_lt h)]
    refine ⟨?_, rfl⟩
    rw [List.length_append, List.length_replicate]
    omega
  · rw [if_neg (by omega), if_neg (by omega), if_pos (by omega)]
    refine ⟨h, ?_⟩
    rw [h]
    simp
  · rw [if_neg (by omega), if_pos h, if_neg (by omega)]
    refine ⟨?_, rfl⟩
    rw [List.length_take]
    omega

/-- C5 counterexample: calling `set_raw_offsets` with a 16-entry list does NOT
pad it to 18 entries; the call is a no-op and the stored raw offsets (the 18
zeros of the freshly initialized kinematics) are not the claimed padded list. -/
theorem set_raw_offsets_16_counterexample :
    setRawOffsets initKinState (List.replicate 16 1) = initKinState ∧
    (setRawOffsets initKinState (List.replicate 16 1)).rawOffsets ≠
      List.replicate 16 (1 : ℝ) ++ List.replicate 2 0 := by
  have hnoop : setRawOffsets initKinState (List.replicate 16 1) = initKinState := by
    unfold setRawOffsets
    rw [if_pos (by simp)]
  refine ⟨hnoop, ?_⟩
  rw [hnoop]
  intro hcon
  have h0 := congrArg (fun l => l.getD 0 0) hcon
  simp [initKinState] at h0

/-- C5 amended: `set_raw_offsets` with a list whose length is not 18 leaves the
kinematics state (in particular the stored raw offsets) unchanged — it rejects
rather than pads — and consequently a state holding exactly 18 raw trim values
still holds exactly 18 raw trim values after any `set_raw_offsets` call. -/
theorem set_raw_offsets_non18_noop (s : KinState) (offsets : List ℝ) :
    (offsets.length ≠ 18 → setRawOffsets s offsets = s) ∧
    (s.rawOffsets.length = 18 → (setRawOffsets s offsets).rawOffsets.length = 18) := by
  constructor
  · intro hlen
    unfold setRawOffsets
    rw [if_pos hlen]
  · intro hs
    unfold setRawOffsets
    by_cases hlen : offsets.length ≠ 18
    · rw [if_pos hlen]; exact hs
    · rw [if_neg hlen]
      unfold updateOffsetVariables
      simpa using not_not.mp hlen

/-- Witness for the amended C5 at the concrete 16-entry input. -/
theorem set_raw_offsets_non18_noop_witness :
    setRawOffsets initKinState (List.replicate 16 1) = initKinState ∧
    (setRawOffsets initKinState (List.replicate 16 1)).rawOffsets.length = 18 :=
  ⟨(set_raw_offsets_non18_noop initKinState (List.replicate 16 1)).1 (by simp),
   (set_raw_offsets_non18_noop initKinState (List.replicate 16 1)).2 (by simp [initKinState])⟩

/-- C2: for every target farther from the leg origin than the total leg length,
`move_to_pos` returns failure, still records the attempted target as the leg's
current position, and issues no servo command for that leg. -/
theorem move_to_pos_unreachable (s : KinState) (leg : Fin 6) (pos : V3)
    (hdist : V3.distanceTo ⟨0, 0, 0⟩ pos > LEG_LENGTH) :
    (moveToPos s leg pos).ok = false ∧
    (moveToPos s leg pos).command = none ∧
    (moveToPos s leg pos).state.currentPoints leg = pos := by
  unfold moveToPos
  simp [hdist]

/-- Witness for C2 at the unreachable target (500, 0, 0) (distance 500 > 354). -/
theorem move_to_pos_unreachable_witness :
    (moveToPos initKinState 0 ⟨500, 0, 0⟩).ok = false ∧
    (moveToPos initKinState 0 ⟨500, 0, 0⟩).command = none ∧
    (moveToPos initKinState 0 ⟨500, 0, 0⟩).state.currentPoints 0 = ⟨500, 0, 0⟩ :=
  move_to_pos_unreachable initKinState 0 ⟨500, 0, 0⟩ (by
    unfold V3.distanceTo LEG_LENGTH COXA_LENGTH FEMUR_LENGTH TIBIA_LENGTH
    rw [show ((0 : ℝ) - 500) ^ 2 + (0 - 0) ^ 2 + (0 - 0) ^ 2 = 500 ^ 2 by norm_num,
      Real.sqrt_sq (by norm_num)]
    norm_num)

/-- C10: every angle triple `move_to_pos` hands to the servo controller has all
three components in [0, 180] degrees, for every state, leg, and target: each
solved angle is clamped into [500, 2500] microseconds and mapped back to
degrees before being commanded. -/
theorem commanded_angles_in_range (s : KinState) (leg : Fin 6) (pos : V3)
    (cmd : ℝ × ℝ × ℝ) (hcmd : (moveToPos s leg pos).command = some cmd) :
    (0 ≤ cmd.1 ∧ cmd.1 ≤ 180) ∧ (0 ≤ cmd.2.1 ∧ cmd.2.1 ≤ 180) ∧
    (0 ≤ cmd.2.2 ∧ cmd.2.2 ≤ 180) := by
  by_cases hd : V3.distanceTo ⟨0, 0, 0⟩ pos > LEG_LENGTH
  · unfold moveToPos at hcmd
    simp [hd] at hcmd
  · rw [moveToPos_command_eq s leg pos hd] at hcmd
    obtain rfl : cmd = _ := (Option.some_inj.mp hcmd).symm
    exact ⟨microsecondsToAngle_mem _, microsecondsToAngle_mem _, microsecondsToAngle_mem _⟩

/-- Witness for C10 at the reachable target (200, 0, -50): the issued command
exists and all three of its angles lie in [0, 180]. -/
theorem commanded_angles_in_range_witness :
    ∃ cmd, (moveToPos initKinState 0 ⟨200, 0, -50⟩).command = some cmd ∧
      (0 ≤ cmd.1 ∧ cmd.1 ≤ 180) ∧ (0 ≤ cmd.2.1 ∧ cmd.2.1 ≤ 180) ∧
      (0 ≤ cmd.2.2 ∧ cmd.2.2 ≤ 180) := by
  have hd : ¬ V3.distanceTo ⟨0, 0, 0⟩ (⟨200, 0, -50⟩ : V3) > LEG_LENGTH := by
    unfold V3.distanceTo LEG_LENGTH COXA_LENGTH FEMUR_LENGTH TIBIA_LENGTH
    rw [show ((0 : ℝ) - 200) ^ 2 + (0 - 0) ^ 2 + (0 - -50) ^ 2 = 42500 by norm_num]
    push_neg
    calc Real.sqrt 42500 ≤ Real.sqrt (354 ^ 2) := Real.sqrt_le_sqrt (by norm_num)
    _ = 354 := Real.sqrt_sq (by norm_num)
    _ ≤ 46 + 108 + 200 := by norm_num
  exact ⟨_, moveToPos_command_eq initKinState 0 ⟨200, 0, -50⟩ hd,
    commanded_angles_in_range initKinState 0 ⟨200, 0, -50⟩ _
      (moveToPos_command_eq initKinState 0 ⟨200, 0, -50⟩ hd)⟩

@[simp] theorem V3.add_eq_mk (a b : V3) :
    a + b = ⟨a.x + b.x, a.y + b.y, a.z + b.z⟩ := rfl

@[simp] theorem V2.add2_eq_mk (a b : V2) :
    a + b = ⟨a.x + b.x, a.y + b.y⟩ := rfl

@[simp] theorem V3.smul_eq_mk (a : V3) (s : ℝ) :
    V3.smul a s = ⟨a.x * s, a.y * s, a.z * s⟩ := rfl

@[simp] theorem V2.smul2_eq_mk (a : V2) (s : ℝ) :
    V2.smul a s = ⟨a.x * s, a.y * s⟩ := rfl

/-- C6: for 2 to 5 control points (3D or 2D), the Bezier evaluator returns
exactly the first control point at t = 0 and exactly the last control point
(index `num - 1`) at t = 1. -/
theorem bezier_endpoint_interpolation (pts : List V3) (qts : List V2) (num : ℕ)
    (h2 : 2 ≤ num) (h5 : num ≤ 5) (hp : num ≤ pts.length) (hq : num ≤ qts.length) :
    (getPointOnBezierCurve pts num 0 = pts.getD 0 ⟨0, 0, 0⟩ ∧
     getPointOnBezierCurve pts num 1 = pts.getD (num - 1) ⟨0, 0, 0⟩) ∧
    (getPointOnBezierCurve2 qts num 0 = qts.getD 0 ⟨0, 0⟩ ∧
     getPointOnBezierCurve2 qts num 1 = qts.getD (num - 1) ⟨0, 0⟩) := by
  interval_cases num <;>
    refine ⟨⟨?_, ?_⟩, ?_, ?_⟩ <;>
    simp [getPointOnBezierCurve, getPointOnBezierCurve2, List.range_succ,
      binomialCoefficient] <;>
    ext <;> push_cast <;> ring

/-- Witness for C6 with three 3D and three 2D control points. -/
theorem bezier_endpoint_interpolation_witness :
    (getPointOnBezierCurve [⟨0, 0, 0⟩, ⟨50, 0, 50⟩, ⟨100, 0, 0⟩] 3 0 = ⟨0, 0, 0⟩ ∧
     getPointOnBezierCurve [⟨0, 0, 0⟩, ⟨50, 0, 50⟩, ⟨100, 0, 0⟩] 3 1 = ⟨100, 0, 0⟩) ∧
    (getPointOnBezierCurve2 [⟨0, 0⟩, ⟨50, 50⟩, ⟨100, 0⟩] 3 0 = ⟨0, 0⟩ ∧
     getPointOnBezierCurve2 [⟨0, 0⟩, ⟨50, 50⟩, ⟨100, 0⟩] 3 1 = ⟨100, 0⟩) :=
  bezier_endpoint_interpolation [⟨0, 0, 0⟩, ⟨50, 0, 50⟩, ⟨100, 0, 0⟩]
    [⟨0, 0⟩, ⟨50, 50⟩, ⟨100, 0⟩] 3 (by norm_num) (by norm_num) (by simp) (by simp)

/-- One cycle-progress step preserves the tripod phase lock, whatever the
per-tick progress change is, since all six legs advance by the same amount
and the conditional wrap subtracts exactly one cycle length. -/
theorem cycleStep_preserves_phaseLock (cp : Fin 6 → ℝ) (change : ℝ)
    (h : tripodPhaseLock cp) : tripodPhaseLock (cycleStep cp change) := by
  obtain ⟨h02, h24, h13, h35, k, hk⟩ := h
  refine ⟨?_, ?_, ?_, ?_, ?_⟩
  · simp only [cycleStep, h02]
  · simp only [cycleStep, h24]
  · simp only [cycleStep, h13]
  · simp only [cycleStep, h35]
  · simp only [cycleStep]
    by_cases h1 : cp 1 + change ≥ POINTS <;> by_cases h0 : cp 0 + change ≥ POINTS
    · exact ⟨k, by rw [if_pos h1, if_pos h0]; push_cast; linarith⟩
    · exact ⟨k - 1, by rw [if_pos h1, if_neg h0]; push_cast; unfold POINTS at hk ⊢; linarith⟩
    · exact ⟨k + 1, by rw [if_neg h1, if_pos h0]; push_cast; unfold POINTS at hk ⊢; linarith⟩
    · exact ⟨k, by rw [if_neg h1, if_neg h0]; push_cast; linarith⟩

/-- C3: after `set_gait(TRI)`, for every sequence of subsequent update ticks
(arbitrary joystick and slider inputs), legs 0, 2, 4 share one cycle-progress
value, legs 1, 3, 5 share another, and the two groups are offset by exactly
half a cycle modulo the cycle length. -/
theorem tripod_phase_lock_all_ticks (inputs : List (V2 × V2 × ℝ)) :
    tripodPhaseLock (runWalkTicks setGaitTriCycle inputs) := by
  have hinit : tripodPhaseLock setGaitTriCycle := by
    refine ⟨rfl, rfl, rfl, rfl, ⟨0, ?_⟩⟩
    norm_num [setGaitTriCycle, POINTS]
  have hrun : ∀ (l : List (V2 × V2 × ℝ)) (cp : Fin 6 → ℝ),
      tripodPhaseLock cp → tripodPhaseLock (runWalkTicks cp l) := by
    intro l
    induction l with
    | nil => intro cp h; exact h
    | cons hd tl ih =>
      intro cp h
      exact ih _ (cycleStep_preserves_phaseLock _ _ h)
  exact hrun inputs _ hinit

/-- C7 (code bug): with every leg's current position exactly value-equal to
the target sleep pose, `SleepState.update` still does not leave phase 1 and
never detaches the servos: the arrival test compares Python object identity
(`Vector3` has no `__eq__`), which is false for the value-equal copies the
kinematics produces, even though the very same tick re-commands every leg to
exactly the target pose.  The controller state is returned unchanged, so no
later tick can detach either. -/
theorem sleep_exact_pose_never_detaches :
    (∀ i : Fin 6, (valueEqualSleepPoints i).val = TARGET_SLEEP_POSITION) ∧
    (sleepUpdate phase1SleepCtl true valueEqualSleepPoints).ctl = phase1SleepCtl ∧
    (sleepUpdate phase1SleepCtl true valueEqualSleepPoints).ctl.sleepState = 1 ∧
    (sleepUpdate phase1SleepCtl true valueEqualSleepPoints).ret = false ∧
    (sleepUpdate phase1SleepCtl true valueEqualSleepPoints).detach = false ∧
    (∀ i : Fin 6, (i, TARGET_SLEEP_POSITION) ∈
      (sleepUpdate phase1SleepCtl true valueEqualSleepPoints).moves) := by
  have hupd : sleepUpdate phase1SleepCtl true valueEqualSleepPoints =
      ⟨phase1SleepCtl, false,
        (List.finRange 6).map fun i => (i, TARGET_SLEEP_POSITION), false⟩ := by
    unfold sleepUpdate phase1SleepCtl valueEqualSleepPoints TARGET_SLEEP_POSITION lerpV3 lerpR
    norm_num
  rw [hupd]
  exact ⟨fun i => rfl, rfl, rfl, rfl, rfl,
    fun i => List.mem_map.mpr ⟨i, List.mem_finRange i, rfl⟩⟩

/-- With both blend weights zero, both weighted Bezier terms vanish, so
`get_gait_point` returns the zero vector (in either phase). -/
theorem gaitPoint_zero_weights (s : WalkState) (leg : Fin 6) (pushFraction : ℝ)
    (joy1 joy2 : V2) (hf : s.forwardAmount = 0) (ht : s.turnAmount = 0) :
    (getGaitPoint s leg pushFraction joy1 joy2).1 = ⟨0, 0, 0⟩ := by
  unfold getGaitPoint
  by_cases hp : s.tArr leg < pushFraction <;>
    simp [hp, hf, ht, V3.divScalar] <;> norm_num

/-- C8 amended: in the gait engine's per-leg target computation, when both the
translation magnitude and the rotation magnitude are zero, the blend's division
is guarded (the weight sum is floored at 1.0), but the returned gait point is
the ZERO vector — both weighted curve terms are multiplied by a zero weight —
not the straight-path Bezier point. -/
theorem gait_point_zero_inputs (s : WalkState) (leg : Fin 6) (pushFraction : ℝ)
    (joy1 joy2 : V2) (hf : s.forwardAmount = 0) (ht : s.turnAmount = 0) :
    (getGaitPoint s leg pushFraction joy1 joy2).1 = ⟨0, 0, 0⟩ :=
  gaitPoint_zero_weights s leg pushFraction joy1 joy2 hf ht

/-- Witness for the amended C8 at a concrete zero-command tripod state. -/
theorem gait_point_zero_inputs_witness :
    (getGaitPoint zeroCmdWalkState 0 (3.1 / 6) ⟨0, 0⟩ ⟨0, 0⟩).1 = ⟨0, 0, 0⟩ :=
  gait_point_zero_inputs zeroCmdWalkState 0 (3.1 / 6) ⟨0, 0⟩ ⟨0, 0⟩ rfl rfl

/-- C8 counterexample: at a concrete zero-command tripod state (leg 1, phase
t = 0, propelling), the returned gait point is the zero vector while the
straight-path Bezier point at the very same arguments is the stance point
(173, 0, -60); the two differ, so the returned point is not the straight path
alone. -/
theorem gait_point_zero_inputs_counterexample :
    (getGaitPoint zeroCmdWalkState 1 (3.1 / 6) ⟨0, 0⟩ ⟨0, 0⟩).1 = ⟨0, 0, 0⟩ ∧
    propelStraightPoint ⟨173, 0, -60⟩ (gaitStrideVec zeroCmdWalkState ⟨0, 0⟩) 1 (-60) 0
      (3.1 / 6) = ⟨173, 0, -60⟩ ∧
    ((⟨0, 0, 0⟩ : V3) ≠ (⟨173, 0, -60⟩ : V3)) := by
  refine ⟨gaitPoint_zero_weights zeroCmdWalkState 1 (3.1 / 6) ⟨0, 0⟩ ⟨0, 0⟩ rfl rfl, ?_, ?_⟩
  · unfold propelStraightPoint gaitStrideVec rotatePoint
    norm_num [zeroCmdWalkState, STRIDE_MULTIPLIER, ROTATION_MULTIPLIER,
      LEG_PLACEMENT_ANGLE, DISTANCE_FROM_CENTER, constrain, V2.smul,
      getPointOnBezierCurve, mapFloat, binomialCoefficient, List.range_succ]
  · intro hcon
    have := congrArg V3.x hcon
    norm_num at this

/-- A 3-point Bezier at parameter 1 is exactly its last control point. -/
theorem bezier3_at_one (a b c : V3) : getPointOnBezierCurve [a, b, c] 3 1 = c := by
  norm_num [getPointOnBezierCurve, List.range_succ, binomialCoefficient]

/-- The transition block never writes the Bezier control-point array. -/
theorem standTransition_scpa (s : StandState) (endP : V3) (moveAll : Bool) :
    (standTransition s endP moveAll).1.scpa = s.scpa := by
  unfold standTransition
  dsimp only
  repeat' split
  all_goals rfl

/-- C4 (code bug): on EVERY `StandingState.update` tick — for every state,
height, previous state and flags — the unconditional maintain loop at the end
of the method commands every one of the six legs straight to the standing end
point (its Bezier at t = 1).  In particular, on a concrete first standing tick
entered from walking with all six legs 50 mm below the end point, all six
not-at-target legs simultaneously receive movement commands toward the
standing target, violating the claimed at-most-3 bound (and making the
three-highest-legs sequencing moot within the very same tick). -/
theorem standing_update_commands_all_six_legs :
    (∀ (s : StandState) (dfg adj : ℝ) (fromState : StateTag) (mA hL : Bool) (i : Fin 6),
      (i.val, (⟨DISTANCE_FROM_CENTER, 0, dfg + adj⟩ : V3)) ∈
        (standUpdate s dfg adj fromState mA hL).2.1) ∧
    (∀ i : Fin 6, standFromWalkState.currentPoints i ≠
      (⟨DISTANCE_FROM_CENTER, 0, -60 + 0⟩ : V3)) := by
  constructor
  · intro s dfg adj fromState mA hL i
    unfold standUpdate
    dsimp only
    rw [standTransition_scpa]
    dsimp only
    simp only [bezier3_at_one]
    exact List.mem_append_right _ (List.mem_map.mpr ⟨i, List.mem_finRange i, rfl⟩)
  · intro i hcon
    have := congrArg V3.z hcon
    norm_num [standFromWalkState, DISTANCE_FROM_CENTER] at this

/-- Cosine of `atan2`, for a nonzero argument vector. -/
theorem atan2_cos (y x : ℝ) (hxy : x * x + y * y ≠ 0) :
    Real.cos (atan2 y x) = x / Real.sqrt (x * x + y * y) := by
  have hz : (⟨x, y⟩ : ℂ) ≠ 0 := by
    intro h
    rw [Complex.ext_iff] at h
    simp only [Complex.zero_re, Complex.zero_im] at h
    exact hxy (by rw [h.1, h.2]; ring)
  rw [atan2, Complex.cos_arg hz, Complex.abs_apply, Complex.normSq_mk]

/-- Sine of `atan2`. -/
theorem atan2_sin (y x : ℝ) :
    Real.sin (atan2 y x) = y / Real.sqrt (x * x + y * y) := by
  rw [atan2, Complex.sin_arg, Complex.abs_apply, Complex.normSq_mk]

/-- The in-plane two-link identity behind the IK/FK round trip: when the
femur-foot distance `h` satisfies the triangle inequalities
`|a3 - a2| = 92 ≤ h ≤ 308 = a2 + a3`, the two law-of-cosines angles and the
`atan2` elevation recombine to reach exactly `(l1, z)` in the vertical plane. -/
theorem ik_plane_core (l1 z h : ℝ) (hh : h = Real.sqrt (l1 * l1 + z * z))
    (h92 : 92 ≤ h) (h308 : h ≤ 308) :
    108 * Real.cos (Real.arccos ((h * h + 108 * 108 - 200 * 200) / (2 * h * 108)) + atan2 z l1)
      - 200 * Real.cos (Real.arccos ((h * h + 108 * 108 - 200 * 200) / (2 * h * 108)) + atan2 z l1
        + Real.arccos ((108 * 108 + 200 * 200 - h * h) / (2 * 108 * 200))) = l1 ∧
    108 * Real.sin (Real.arccos ((h * h + 108 * 108 - 200 * 200) / (2 * h * 108)) + atan2 z l1)
      - 200 * Real.sin (Real.arccos ((h * h + 108 * 108 - 200 * 200) / (2 * h * 108)) + atan2 z l1
        + Real.arccos ((108 * 108 + 200 * 200 - h * h) / (2 * 108 * 200))) = z := by
  have hhpos : (0 : ℝ) < h := lt_of_lt_of_le (by norm_num) h92
  have harg0 : (0 : ℝ) ≤ l1 * l1 + z * z :=
    add_nonneg (mul_self_nonneg l1) (mul_self_nonneg z)
  have hargpos : (0 : ℝ) < l1 * l1 + z * z := by
    rcases eq_or_lt_of_le harg0 with heq | hlt
    · exfalso
      have hz0 : h = 0 := by rw [hh, ← heq, Real.sqrt_zero]
      linarith
    · exact hlt
  have hsq : h * h = l1 * l1 + z * z := by
    rw [hh]
    exact Real.mul_self_sqrt harg0
  set u1 : ℝ := (h * h + 108 * 108 - 200 * 200) / (2 * h * 108) with hu1def
  set u2 : ℝ := (108 * 108 + 200 * 200 - h * h) / (2 * 108 * 200) with hu2def
  set A : ℝ := Real.arccos u1 with hAdef
  set B : ℝ := atan2 z l1 with hBdef
  set C : ℝ := Real.arccos u2 with hCdef
  have hden : (0 : ℝ) < 2 * h * 108 := by positivity
  have hu1a : -1 ≤ u1 := by
    rw [hu1def, le_div_iff hden]
    nlinarith [mul_nonneg (sub_nonneg.mpr h92) (by linarith : (0:ℝ) ≤ h + 308)]
  have hu1b : u1 ≤ 1 := by
    rw [hu1def, div_le_one hden]
    nlinarith [mul_nonpos_of_nonpos_of_nonneg (by linarith : h - 308 ≤ (0:ℝ))
      (by linarith : (0:ℝ) ≤ h + 92)]
  have hu2a : -1 ≤ u2 := by
    rw [hu2def, le_div_iff (by norm_num : (0:ℝ) < 2 * 108 * 200)]
    nlinarith
  have hu2b : u2 ≤ 1 := by
    rw [hu2def, div_le_one (by norm_num : (0:ℝ) < 2 * 108 * 200)]
    nlinarith
  have hcA : Real.cos A = u1 := Real.cos_arccos hu1a hu1b
  have hsA : Real.sin A = Real.sqrt (1 - u1 ^ 2) := Real.sin_arccos u1
  have hcC : Real.cos C = u2 := Real.cos_arccos hu2a hu2b
  have hsC : Real.sin C = Real.sqrt (1 - u2 ^ 2) := Real.sin_arccos u2
  have hcB : Real.cos B = l1 / h := by
    rw [hBdef, atan2_cos z l1 (ne_of_gt hargpos), ← hh]
  have hsB : Real.sin B = z / h := by
    rw [hBdef, atan2_sin z l1, ← hh]
  have e1 : 108 - 200 * u2 = h * u1 := by
    rw [hu1def, hu2def]
    field_simp
    ring
  have hs1 : (0 : ℝ) ≤ 1 - u1 ^ 2 := by nlinarith
  have hs2 : (0 : ℝ) ≤ 1 - u2 ^ 2 := by nlinarith
  have e2 : h * Real.sqrt (1 - u1 ^ 2) = 200 * Real.sqrt (1 - u2 ^ 2) := by
    rw [show h * Real.sqrt (1 - u1 ^ 2) = Real.sqrt (h ^ 2 * (1 - u1 ^ 2)) by
        rw [Real.sqrt_mul (sq_nonneg h), Real.sqrt_sq hhpos.le],
      show (200 : ℝ) * Real.sqrt (1 - u2 ^ 2) = Real.sqrt (200 ^ 2 * (1 - u2 ^ 2)) by
        rw [Real.sqrt_mul (by norm_num : (0:ℝ) ≤ 200 ^ 2),
          Real.sqrt_sq (by norm_num : (0:ℝ) ≤ 200)]]
    congr 1
    rw [hu1def, hu2def]
    field_simp
    ring
  have sq1 : Real.sqrt (1 - u1 ^ 2) ^ 2 = 1 - u1 ^ 2 := Real.sq_sqrt hs1
  have hA : 108 * Real.cos A - 200 * Real.cos (A + C) = h := by
    rw [Real.cos_add, hcA, hcC, hsA, hsC]
    linear_combination u1 * e1 - Real.sqrt (1 - u1 ^ 2) * e2 + h * sq1
  have hB : 108 * Real.sin A - 200 * Real.sin (A + C) = 0 := by
    rw [Real.sin_add, hsA, hcA, hcC, hsC]
    linear_combination Real.sqrt (1 - u1 ^ 2) * e1 + u1 * e2
  have hreassoc : A + B + C = A + C + B := by ring
  constructor
  · rw [hreassoc, Real.cos_add A B, Real.cos_add (A + C) B, hcB, hsB]
    rw [show 108 * (Real.cos A * (l1 / h) - Real.sin A * (z / h)) -
        200 * (Real.cos (A + C) * (l1 / h) - Real.sin (A + C) * (z / h)) =
        l1 / h * (108 * Real.cos A - 200 * Real.cos (A + C)) -
        z / h * (108 * Real.sin A - 200 * Real.sin (A + C)) by ring,
      hA, hB, mul_zero, sub_zero]
    exact div_mul_cancel₀ l1 (ne_of_gt hhpos)
  · rw [hreassoc, Real.sin_add A B, Real.sin_add (A + C) B, hcB, hsB]
    rw [show 108 * (Real.sin A * (l1 / h) + Real.cos A * (z / h)) -
        200 * (Real.sin (A + C) * (l1 / h) + Real.cos (A + C) * (z / h)) =
        l1 / h * (108 * Real.sin A - 200 * Real.sin (A + C)) +
        z / h * (108 * Real.cos A - 200 * Real.cos (A + C)) by ring,
      hA, hB, mul_zero, zero_add]
    exact div_mul_cancel₀ z (ne_of_gt hhpos)

/-- C1 amended: for every target with a nonzero horizontal projection whose
femur-foot distance `h` lies within the two-link annulus
`[|a3 - a2|, a2 + a3] = [92, 308]`, and with all calibration offsets zero,
`move_to_pos` succeeds and the forward kinematics of the solved angles
reproduces the target exactly. -/
theorem ik_roundtrip (x y z : ℝ) (hxy : x * x + y * y ≠ 0)
    (h92 : 92 ≤ femurFootDist x y z) (h308 : femurFootDist x y z ≤ 308) :
    (moveToPos zeroOffsetKinState 0 ⟨x, y, z⟩).ok = true ∧
    fkFromAngles (solveAngles ⟨x, y, z⟩ 0 0 0) = ⟨x, y, z⟩ := by
  have hxy0 : (0 : ℝ) ≤ x * x + y * y :=
    add_nonneg (mul_self_nonneg x) (mul_self_nonneg y)
  have hlpos : 0 < Real.sqrt (x * x + y * y) :=
    Real.sqrt_pos.mpr (lt_of_le_of_ne hxy0 (Ne.symm hxy))
  set l : ℝ := Real.sqrt (x * x + y * y) with hldef
  set l1 : ℝ := l - 46 with hl1def
  set h : ℝ := Real.sqrt (l1 * l1 + z * z) with hhdef
  have hfd : femurFootDist x y z = h := by
    unfold femurFootDist COXA_LENGTH
    rw [← hldef, ← hl1def, ← hhdef]
  rw [hfd] at h92 h308
  have hhpos : (0 : ℝ) < h := lt_of_lt_of_le (by norm_num) h92
  have harg0 : (0 : ℝ) ≤ l1 * l1 + z * z :=
    add_nonneg (mul_self_nonneg l1) (mul_self_nonneg z)
  have hsq : h * h = l1 * l1 + z * z := by
    rw [hhdef]
    exact Real.mul_self_sqrt harg0
  have hlsq : l * l = x * x + y * y := by
    rw [hldef]
    exact Real.mul_self_sqrt hxy0
  have hden : (0 : ℝ) < 2 * h * 108 := by positivity
  have hu1a : -1 ≤ (h * h + 108 * 108 - 200 * 200) / (2 * h * 108) := by
    rw [le_div_iff hden]
    nlinarith [mul_nonneg (sub_nonneg.mpr h92) (by linarith : (0:ℝ) ≤ h + 308)]
  have hu1b : (h * h + 108 * 108 - 200 * 200) / (2 * h * 108) ≤ 1 := by
    rw [div_le_one hden]
    nlinarith [mul_nonpos_of_nonpos_of_nonneg (by linarith : h - 308 ≤ (0:ℝ))
      (by linarith : (0:ℝ) ≤ h + 92)]
  have hu2a : -1 ≤ (108 * 108 + 200 * 200 - h * h) / (2 * 108 * 200) := by
    rw [le_div_iff (by norm_num : (0:ℝ) < 2 * 108 * 200)]
    nlinarith
  have hu2b : (108 * 108 + 200 * 200 - h * h) / (2 * 108 * 200) ≤ 1 := by
    rw [div_le_one (by norm_num : (0:ℝ) < 2 * 108 * 200)]
    nlinarith
  have hsolve : solveAngles ⟨x, y, z⟩ 0 0 0 =
      ⟨atan2 y x * (180 / Real.pi),
       (Real.arccos ((h * h + 108 * 108 - 200 * 200) / (2 * h * 108)) + atan2 z l1) *
         180 / Real.pi,
       180 - Real.arccos ((108 * 108 + 200 * 200 - h * h) / (2 * 108 * 200)) *
         180 / Real.pi⟩ := by
    unfold solveAngles COXA_LENGTH FEMUR_LENGTH TIBIA_LENGTH
    dsimp only
    rw [← hldef, ← hl1def, ← hhdef,
      constrain_eq_self _ _ _ hu1a hu1b, constrain_eq_self _ _ _ hu2a hu2b]
    norm_num
  have hl1h : l1 ≤ h := by
    nlinarith [hsq, mul_self_nonneg z, hhpos, hlpos]
  have hdle : V3.distanceTo ⟨0, 0, 0⟩ ⟨x, y, z⟩ ≤ LEG_LENGTH := by
    unfold V3.distanceTo LEG_LENGTH COXA_LENGTH FEMUR_LENGTH TIBIA_LENGTH
    dsimp only
    rw [show (0 - x) ^ 2 + (0 - y) ^ 2 + (0 - z) ^ 2 = l * l + z * z by rw [hlsq]; ring]
    have hbound : l * l + z * z ≤ 354 ^ 2 := by nlinarith [hl1h, hsq, h308, hhpos]
    calc Real.sqrt (l * l + z * z) ≤ Real.sqrt (354 ^ 2) := Real.sqrt_le_sqrt hbound
    _ = 354 := Real.sqrt_sq (by norm_num)
    _ ≤ 46 + 108 + 200 := by norm_num
  have hok : (moveToPos zeroOffsetKinState 0 ⟨x, y, z⟩).ok = true := by
    unfold moveToPos
    dsimp only
    rw [if_neg (not_lt.mpr hdle)]
  refine ⟨hok, ?_⟩
  rw [hsolve]
  unfold fkFromAngles COXA_LENGTH FEMUR_LENGTH TIBIA_LENGTH
  dsimp only
  obtain ⟨hC1, hC2⟩ := ik_plane_core l1 z h hhdef h92 h308
  have hpi := Real.pi_ne_zero
  have ht1 : atan2 y x * (180 / Real.pi) * Real.pi / 180 = atan2 y x := by
    field_simp
  have ht2 : (Real.arccos ((h * h + 108 * 108 - 200 * 200) / (2 * h * 108)) + atan2 z l1) *
      180 / Real.pi * Real.pi / 180 =
      Real.arccos ((h * h + 108 * 108 - 200 * 200) / (2 * h * 108)) + atan2 z l1 := by
    field_simp
  have ht23 : ((Real.arccos ((h * h + 108 * 108 - 200 * 200) / (2 * h * 108)) + atan2 z l1) *
        180 / Real.pi -
      (180 - Real.arccos ((108 * 108 + 200 * 200 - h * h) / (2 * 108 * 200)) *
        180 / Real.pi)) * Real.pi / 180 =
      Real.arccos ((h * h + 108 * 108 - 200 * 200) / (2 * h * 108)) + atan2 z l1 +
        Real.arccos ((108 * 108 + 200 * 200 - h * h) / (2 * 108 * 200)) - Real.pi := by
    field_simp
    ring
  rw [ht1, ht2, ht23]
  set S2 : ℝ := Real.arccos ((h * h + 108 * 108 - 200 * 200) / (2 * h * 108)) + atan2 z l1
    with hS2def
  set S3 : ℝ := S2 + Real.arccos ((108 * 108 + 200 * 200 - h * h) / (2 * 108 * 200))
    with hS3def
  have hcos23 : Real.cos (S3 - Real.pi) = -Real.cos S3 := by
    rw [Real.cos_sub, Real.cos_pi, Real.sin_pi]
    ring
  have hsin23 : Real.sin (S3 - Real.pi) = -Real.sin S3 := by
    rw [Real.sin_sub, Real.cos_pi, Real.sin_pi]
    ring
  rw [hcos23, hsin23]
  have hreach : 46 + 108 * Real.cos S2 + 200 * -Real.cos S3 = l := by
    linarith [hC1]
  have hz : 108 * Real.sin S2 + 200 * -Real.sin S3 = z := by
    linarith [hC2]
  have hcosat : Real.cos (atan2 y x) = x / l := by
    rw [atan2_cos y x hxy, ← hldef]
  have hsinat : Real.sin (atan2 y x) = y / l := by
    rw [atan2_sin y x, ← hldef]
  rw [hreach, hz, hcosat, hsinat]
  refine V3.ext3 ?_ ?_ rfl
  · dsimp only
    rw [mul_comm l (x / l)]
    exact div_mul_cancel₀ x (ne_of_gt hlpos)
  · dsimp only
    rw [mul_comm l (y / l)]
    exact div_mul_cancel₀ y (ne_of_gt hlpos)

/-- Witness for the amended C1 at the reachable target (200, 0, -50), whose
femur-foot distance is sqrt 26216, inside [92, 308]. -/
theorem ik_roundtrip_witness :
    (200 : ℝ) * 200 + 0 * 0 ≠ 0 ∧
    (moveToPos zeroOffsetKinState 0 ⟨200, 0, -50⟩).ok = true ∧
    fkFromAngles (solveAngles ⟨200, 0, -50⟩ 0 0 0) = ⟨200, 0, -50⟩ := by
  have hs : Real.sqrt ((200 : ℝ) * 200 + 0 * 0) = 200 := by
    rw [show ((200 : ℝ) * 200 + 0 * 0) = 200 ^ 2 by norm_num]
    exact Real.sqrt_sq (by norm_num)
  have hfd : femurFootDist 200 0 (-50) = Real.sqrt 26216 := by
    unfold femurFootDist COXA_LENGTH
    rw [hs]
    norm_num
  have h1 : (92 : ℝ) ≤ femurFootDist 200 0 (-50) := by
    rw [hfd]
    calc (92 : ℝ) = Real.sqrt (92 ^ 2) := (Real.sqrt_sq (by norm_num)).symm
    _ ≤ Real.sqrt 26216 := Real.sqrt_le_sqrt (by norm_num)
  have h2 : femurFootDist 200 0 (-50) ≤ 308 := by
    rw [hfd]
    calc Real.sqrt 26216 ≤ Real.sqrt (308 ^ 2) := Real.sqrt_le_sqrt (by norm_num)
    _ = 308 := Real.sqrt_sq (by norm_num)
  exact ⟨by norm_num, ik_roundtrip 200 0 (-50) (by norm_num) h1 h2⟩

/-- C1 counterexample: the target (10, 0, 0) is within total reach
(distance 10 ≤ 354), and `move_to_pos` succeeds on it, but its femur-foot
distance is 36 < 92, the two `acos` arguments saturate at the clamp, and the
forward kinematics of the solved angles lands at (-46, 0, 0), 56 mm away from
the requested target — the claimed round trip fails. -/
theorem ik_roundtrip_counterexample :
    V3.distanceTo ⟨0, 0, 0⟩ ⟨10, 0, 0⟩ ≤ LEG_LENGTH ∧
    (moveToPos zeroOffsetKinState 0 ⟨10, 0, 0⟩).ok = true ∧
    fkFromAngles (solveAngles ⟨10, 0, 0⟩ 0 0 0) = ⟨-46, 0, 0⟩ ∧
    ((⟨-46, 0, 0⟩ : V3) ≠ (⟨10, 0, 0⟩ : V3)) := by
  have hd10 : V3.distanceTo ⟨0, 0, 0⟩ ⟨10, 0, 0⟩ = 10 := by
    unfold V3.distanceTo
    dsimp only
    rw [show ((0 : ℝ) - 10) ^ 2 + (0 - 0) ^ 2 + (0 - 0) ^ 2 = 10 ^ 2 by norm_num]
    exact Real.sqrt_sq (by norm_num)
  have hdle : V3.distanceTo ⟨0, 0, 0⟩ ⟨10, 0, 0⟩ ≤ LEG_LENGTH := by
    rw [hd10]
    unfold LEG_LENGTH COXA_LENGTH FEMUR_LENGTH TIBIA_LENGTH
    norm_num
  have hok : (moveToPos zeroOffsetKinState 0 ⟨10, 0, 0⟩).ok = true := by
    unfold moveToPos
    dsimp only
    rw [if_neg (not_lt.mpr hdle)]
  have s1 : Real.sqrt ((10 : ℝ) * 10 + 0 * 0) = 10 := by
    rw [show ((10 : ℝ) * 10 + 0 * 0) = 10 ^ 2 by norm_num]
    exact Real.sqrt_sq (by norm_num)
  have s2 : Real.sqrt (((10 : ℝ) - 46) * ((10 : ℝ) - 46) + 0 * 0) = 36 := by
    rw [show (((10 : ℝ) - 46) * ((10 : ℝ) - 46) + 0 * 0) = 36 ^ 2 by norm_num]
    exact Real.sqrt_sq (by norm_num)
  have c1 : constrain ((36 * 36 + 108 * 108 - 200 * 200) / (2 * 36 * 108)) (-1) 1 = -1 := by
    unfold constrain
    rw [min_eq_right (by norm_num), max_eq_left (by norm_num)]
  have c2 : constrain ((108 * 108 + 200 * 200 - 36 * 36) / (2 * 108 * 200)) (-1) 1 = 1 := by
    unfold constrain
    rw [min_eq_left (by norm_num), max_eq_right (by norm_num)]
  have a1 : atan2 0 (10 : ℝ) = 0 := by
    unfold atan2
    rw [show (⟨(10 : ℝ), 0⟩ : ℂ) = ((10 : ℝ) : ℂ) from rfl]
    exact Complex.arg_ofReal_of_nonneg (by norm_num)
  have a2 : atan2 0 ((10 : ℝ) - 46) = Real.pi := by
    unfold atan2
    rw [show (10 : ℝ) - 46 = -36 by norm_num,
      show (⟨(-36 : ℝ), 0⟩ : ℂ) = ((-36 : ℝ) : ℂ) from rfl]
    exact Complex.arg_ofReal_of_neg (by norm_num)
  have hsolve10 : solveAngles ⟨10, 0, 0⟩ 0 0 0 = ⟨0, 360, 180⟩ := by
    unfold solveAngles COXA_LENGTH FEMUR_LENGTH TIBIA_LENGTH
    dsimp only
    rw [s1, s2, c1, c2, a1, a2, Real.arccos_neg_one, Real.arccos_one]
    simp only [IKAngles.mk.injEq]
    refine ⟨by norm_num, ?_, by norm_num⟩
    field_simp
    ring
  have hfk10 : fkFromAngles ⟨0, 360, 180⟩ = ⟨-46, 0, 0⟩ := by
    unfold fkFromAngles COXA_LENGTH FEMUR_LENGTH TIBIA_LENGTH
    dsimp only
    rw [show (0 : ℝ) * Real.pi / 180 = 0 by ring,
      show (360 : ℝ) * Real.pi / 180 = 2 * Real.pi by ring,
      show ((360 : ℝ) - 180) * Real.pi / 180 = Real.pi by ring,
      Real.cos_zero, Real.sin_zero, Real.cos_two_pi, Real.sin_two_pi,
      Real.cos_pi, Real.sin_pi]
    refine V3.ext3 ?_ ?_ ?_ <;> norm_num
  refine ⟨hdle, hok, ?_, ?_⟩
  · rw [hsolve10, hfk10]
  · intro hcon
    have := congrArg V3.x hcon
    norm_num at this

end HexapodRpi

end
